import Mathlib

/-
Verification of the content-rewriting service (`rewriteContentWithSEO`, the
persistence adapter `DatabaseStorage`) against its natural-language
specification.  The TypeScript source is embedded shallowly: the upstream
LLM call, the JSON parser and the database are replaced by explicit inputs
(an `UpstreamOutcome` value carries the raw reply text together with the
outcome of `JSON.parse` on it; the store is a plain list of records), and
every JavaScript idiom that the code relies on (`||` falsiness, `split`,
`toFixed`, `Math.round`, `substring`, truthiness of optional parameters) is
modelled by a small named function whose doc comment points back to the
idiom it embeds.
-/

namespace Reescrita

/-! ## JavaScript-semantics helpers -/

/-- Model of the JavaScript expression `v || d` for string-valued `v`
(`undefined` and `""` are falsy, every other string is truthy). -/
def jsOrStr (v : Option String) (d : String) : String :=
  match v with
  | some s => if s = "" then d else s
  | none => d

/-- Model of the JavaScript expression `v || d` for number-valued `v`
(`undefined` and `0` are falsy). -/
def jsOrInt (v : Option Int) (d : Int) : Int :=
  match v with
  | some n => if n = 0 then d else n
  | none => d

/-- Truthiness of an optional string parameter, as in `authorName ? a : b`:
`undefined` and `""` are falsy. -/
def jsTruthy (v : Option String) : Bool :=
  match v with
  | some s => s != ""
  | none => false

/-- Model of `s.substring(0, n)` at the character level (the source counts
UTF-16 code units; for the inputs of interest the two coincide). -/
def strTake (n : Nat) (s : String) : String :=
  String.mk (s.data.take n)

/-- Model of `s.toLowerCase()`; `Char.toLower` covers the ASCII range, which
is the range the source's keyword matching exercises. -/
def lowerStr (s : String) : String :=
  String.mk (s.data.map Char.toLower)

/-- Does `needle` occur as a contiguous sublist of the haystack? -/
def listContains (needle : List Char) : List Char → Bool
  | [] => needle.isEmpty
  | c :: cs => List.isPrefixOf needle (c :: cs) || listContains needle cs

/-- Model of `hay.includes(needle)` (JavaScript substring containment),
used by the catch-block error classifier. -/
def strContains (hay needle : String) : Bool :=
  listContains needle.data hay.data

/-- One step of the `split(/\s+/)` scan.  State: completed fields, current
field, and whether the scanner is inside a whitespace run (a run contributes
a single separator no matter its length). -/
def splitWsStep (st : List String × String × Bool) (c : Char) : List String × String × Bool :=
  if c.isWhitespace then
    if st.2.2 then st
    else (st.1 ++ [st.2.1], "", true)
  else (st.1, st.2.1.push c, false)

/-- Model of JavaScript `s.split(/\s+/)`: the string is cut at every maximal
whitespace run; a leading or trailing run contributes an empty field, and
the empty string yields the single field `""` (never the empty list). -/
def splitWs (s : String) : List String :=
  let st := s.data.foldl splitWsStep ([], "", false)
  st.1 ++ [st.2.1]

/-- `content.split(/\s+/).length` — the word count the source computes. -/
def countWords (s : String) : Nat :=
  (splitWs s).length

/-- Fuel-indexed scan counting non-overlapping occurrences of `nd` in the
haystack, advancing past a match exactly as a global regex does. -/
def countOccAux (nd : List Char) : Nat → List Char → Nat
  | 0, _ => 0
  | _ + 1, [] => 0
  | fuel + 1, c :: cs =>
    if List.isPrefixOf nd (c :: cs) then
      1 + countOccAux nd fuel (List.drop nd.length (c :: cs))
    else countOccAux nd fuel cs

/-- The number of non-overlapping literal occurrences of `needle` in `hay`,
scanned left to right.  This is what the compiled global regex of a pattern
free of regex metacharacters counts (`new RegExp(needle, 'g')` for such a
`needle` denotes the literal string); it is used below both as the matcher
that faithful sample oracles return for metacharacter-free keywords and as
the formal reading of the spec's phrase "literal keyword occurrences".  An
empty pattern matches once at every position, hence `hay.length + 1`. -/
def countOcc (needle hay : String) : Nat :=
  if needle.data.isEmpty then hay.data.length + 1
  else countOccAux needle.data hay.data.length hay.data

/-- The JavaScript regular-expression engine, an external collaborator of
the rewrite logic exactly like `JSON.parse`: `regex pattern` models the
evaluation of `new RegExp(pattern, 'g')` — `.error msg` when the
construction throws a `SyntaxError` carrying message `msg` (an invalid
pattern such as `"("`), and `.ok f` when it compiles, where `f hay` is the
number of matches `hay.match(re)` finds (`0` when `match` returns null).
The rewrite theorems quantify over every such oracle; counterexamples
instantiate it with the documented behavior of concrete patterns. -/
def RegexCompile : Type := String → Except String (String → Nat)

/-- Model of `((occ / wc) * 100).toFixed(1) + '%'` for `wc > 0`: the exact
rational `occ / wc * 100` rounded half-up to one fractional digit (the
source computes in binary floating point, which agrees except on
representation-induced ties). -/
def toFixed1Percent (occ wc : Nat) : String :=
  let tenths := (2000 * occ + wc) / (2 * wc)
  Nat.repr (tenths / 10) ++ "." ++ Nat.repr (tenths % 10) ++ "%"

/-- The source's keyword-density expression
`wordCount > 0 ? ((occ / wordCount) * 100).toFixed(1) + '%' : '0%'`. -/
def densityString (occ wc : Nat) : String :=
  if wc > 0 then toFixed1Percent occ wc else "0%"

/-- The source's SEO-score expression
`Math.min(100, Math.max(1, occ * 10 + (wordCount > 300 ? 20 : 10)))`. -/
def seoScoreOf (occ wc : Nat) : Nat :=
  min 100 (max 1 (occ * 10 + (if wc > 300 then 20 else 10)))

/-- Model of `Math.round(sum / len)` for integer `sum` and positive `len`:
nearest integer, ties rounded toward positive infinity. -/
def jsRound (sum : Int) (len : Nat) : Int :=
  Int.fdiv (2 * sum + len) (2 * len)

/-! ## Data model of `SEORewriteResult` (openai service) -/

/-- `featuredImage` sub-record of the result. -/
structure FeaturedImage where
  title : String
  altText : String
  keywords : List String
  deriving DecidableEq

/-- One FAQ question/answer pair. -/
structure FaqPair where
  question : String
  answer : String
  deriving DecidableEq

/-- One case study.  The collaborator `getDynamicCaseStudies` returns records
of this shape as well (the prompt maps `growthMetric` to `results` and
`sourceUrl` to `externalLink`); the claims never inspect these fields, so a
single record type stands for both. -/
structure CaseStudy where
  title : String
  description : String
  results : String
  externalLink : String
  deriving DecidableEq

/-- `richContent.suggestedGraphics` element. -/
structure SuggestedGraphic where
  type : String
  title : String
  description : String
  dataPoints : List String
  deriving DecidableEq

/-- `richContent.suggestedImages` element. -/
structure SuggestedImage where
  position : String
  description : String
  altText : String
  caption : String
  deriving DecidableEq

/-- `richContent.visualElements` element. -/
structure VisualElement where
  type : String
  content : String
  position : String
  deriving DecidableEq

/-- `richContent` sub-record of the result. -/
structure RichContent where
  suggestedGraphics : List SuggestedGraphic
  suggestedImages : List SuggestedImage
  visualElements : List VisualElement
  deriving DecidableEq

/-- One citation suggestion. -/
structure Citation where
  type : String
  text : String
  suggestedLink : String
  credibility : String
  deriving DecidableEq

/-- One internal-linking suggestion. -/
structure InternalLink where
  anchorText : String
  targetPage : String
  context : String
  relevanceScore : ℚ
  deriving DecidableEq

/-- `entities` sub-record of the result. -/
structure Entities where
  brands : List String
  people : List String
  locations : List String
  concepts : List String
  deriving DecidableEq

/-- `schemaMarkup` sub-record of the result. -/
structure SchemaMarkup where
  articleSchema : Bool
  authorSchema : Bool
  faqSchema : Bool
  organizationSchema : Bool
  reviewSchema : Bool
  deriving DecidableEq

/-- `ctaSection` sub-record of the result. -/
structure CtaSection where
  title : String
  text : String
  buttonText : String
  deriving DecidableEq

/-- The returned `SEORewriteResult`.  The TypeScript interface declares
`rewrittenContent: string`, but on the parse-success path the function
returns `result.rewrittenContent` unguarded, which at runtime is `undefined`
whenever the parsed payload lacks that field (the payload comes from
`JSON.parse` and is untyped); the field is therefore embedded as
`Option String`, `none` standing for `undefined`. -/
structure SEORewriteResult where
  rewrittenContent : Option String
  wordCount : Nat
  keywordDensity : String
  seoScore : Nat
  readabilityScore : String
  metaDescription : String
  helpfulnessScore : Int
  qualityScore : Int
  eatScore : Int
  structureScore : Int
  aiOptimizationScore : Int
  featuredImage : FeaturedImage
  faq : List FaqPair
  caseStudies : List CaseStudy
  richContent : RichContent
  citations : List Citation
  internalLinking : List InternalLink
  entities : Entities
  schemaMarkup : SchemaMarkup
  authorBio : Option String
  ctaSection : Option CtaSection
  deriving DecidableEq

/-- `featuredImage` as it may appear in the untrusted parsed payload: every
field may be absent. -/
structure PartialFeaturedImage where
  title : Option String := none
  altText : Option String := none
  keywords : Option (List String) := none
  deriving DecidableEq

/-- The outcome of `JSON.parse` on the model's reply: an untyped object in
which every expected field may be absent (`none` = the JavaScript value
`undefined`).  The metric fields `wordCount`, `keywordDensity`,
`seoScore` and `readabilityScore` are carried even though the function never
reads them — which is exactly what the recomputation claims are about. -/
structure PartialResult where
  rewrittenContent : Option String := none
  metaDescription : Option String := none
  wordCount : Option Nat := none
  keywordDensity : Option String := none
  seoScore : Option Nat := none
  readabilityScore : Option String := none
  helpfulnessScore : Option Int := none
  qualityScore : Option Int := none
  eatScore : Option Int := none
  structureScore : Option Int := none
  aiOptimizationScore : Option Int := none
  featuredImage : Option PartialFeaturedImage := none
  faq : Option (List FaqPair) := none
  caseStudies : Option (List CaseStudy) := none
  richContent : Option RichContent := none
  citations : Option (List Citation) := none
  internalLinking : Option (List InternalLink) := none
  entities : Option Entities := none
  schemaMarkup : Option SchemaMarkup := none
  authorBio : Option String := none
  ctaSection : Option CtaSection := none
  deriving DecidableEq

/-- The caller-supplied arguments of `rewriteContentWithSEO`.  The two
collaborator functions (`webSearchFunction` / case-study lookup, internal
links) only influence the prompt and the `caseStudies` fallback list, so the
case-study list they produce is passed separately and the prompt text, which
no claim mentions, is not modelled. -/
structure RewriteInput where
  originalContent : String
  targetKeyword : String
  keywordLink : Option String := none
  companyName : Option String := none
  authorName : Option String := none
  authorDescription : Option String := none
  apiKey : Option String := none
  deriving DecidableEq

/-- What the external text-generation call did: either the call itself threw
(`apiError`), or it returned a completion whose message content is `content`
(`none` = JavaScript `null`) and whose `JSON.parse` outcome is `parsed`
(`none` = the parse threw, i.e. the reply was not valid JSON). -/
inductive UpstreamOutcome where
  | apiError (message : String)
  | reply (content : Option String) (parsed : Option PartialResult)
  deriving DecidableEq

/-! ## The rewrite operation -/

/-- The message of the error thrown when no usable API key is available
(source: `"Chave de API do OpenAI não configurada. Configure nas
configurações da aplicação."`).  Note that this throw sits inside the `try`
block, so it is re-processed by the catch-block classifier below. -/
def configErrorMessage : String :=
  "Chave de API do OpenAI não configurada. Configure nas configurações da aplicação."

/-- Message thrown when the completion's content is null or empty. -/
def emptyReplyMessage : String := "Resposta vazia da API OpenAI"

/-- Catch-block replacement message for errors whose text contains
`"API key"`. -/
def apiKeyErrorMessage : String := "Chave da API OpenAI não configurada corretamente"

/-- Catch-block replacement message for errors whose text contains
`"quota"`. -/
def quotaErrorMessage : String := "Limite da API OpenAI excedido. Tente novamente mais tarde"

/-- The fixed text prepended by the catch-all branch of the error handler. -/
def rateLimitErrorMessage : String := "Muitas requisições. Aguarde alguns minutos e tente novamente"

/-- The prefix text of the generic catch-all error message. -/
def genericErrorPre : String := "Erro no processamento do conteúdo: "

/-- The catch block of `rewriteContentWithSEO`: substring-match the caught
error's message against three known provider-failure texts, otherwise wrap
it in the generic processing-error message.  (Every error the function
throws is an `Error` instance, so the `instanceof` guard always holds.) -/
def classifyUpstreamError (m : String) : String :=
  if strContains m "API key" then apiKeyErrorMessage
  else if strContains m "quota" then quotaErrorMessage
  else if strContains m "rate limit" then rateLimitErrorMessage
  else genericErrorPre ++ m

/-- `apiKey || process.env.OPENAI_API_KEY`, with `""` falsy. -/
def effectiveKey (apiKey envKey : Option String) : Option String :=
  match apiKey with
  | some s => if s = "" then envKey else some s
  | none => envKey

/-- Negation of the guard `!openaiApiKey || openaiApiKey === "dummy-key"`:
the resolved key is usable iff it is present, non-empty and not the
placeholder. -/
def keyUsable (k : Option String) : Bool :=
  match k with
  | some s => s != "" && s != "dummy-key"
  | none => false

/-- The parse-failure fallback result (source lines 384-431): the raw reply
text becomes the rewritten content, the three text metrics are computed from
it — the occurrence count by matching the compiled keyword regex `matcher`
against the lowercased text — every structured field gets its
empty-but-valid default, and the author-bio / CTA sections follow the input
parameters. -/
def fallbackResult (inp : RewriteInput) (realCaseStudies : List CaseStudy)
    (matcher : String → Nat) (content : String) : SEORewriteResult :=
  let kw := inp.targetKeyword
  let wc := countWords content
  let occ := matcher (lowerStr content)
  { rewrittenContent := some content
    helpfulnessScore := 85
    qualityScore := 80
    eatScore := 75
    structureScore := 82
    aiOptimizationScore := 78
    richContent := { suggestedGraphics := [], suggestedImages := [], visualElements := [] }
    citations := []
    internalLinking := []
    entities := { brands := [], people := [], locations := [], concepts := [] }
    schemaMarkup :=
      { articleSchema := true, authorSchema := false, faqSchema := false
        organizationSchema := false, reviewSchema := false }
    wordCount := wc
    keywordDensity := densityString occ wc
    seoScore := seoScoreOf occ wc
    readabilityScore := if wc > 500 then "Boa" else "Regular"
    metaDescription := kw ++ " - resumo otimizado para SEO"
    featuredImage :=
      { title := "Imagem sobre " ++ kw
        altText := kw ++ " - imagem ilustrativa"
        keywords := [kw] }
    faq := [{ question := "O que é " ++ kw ++ "?"
              answer := "Resposta baseada no conteúdo reescrito." }]
    caseStudies := realCaseStudies
    authorBio :=
      if jsTruthy inp.authorName then
        some ("Biografia do autor " ++ inp.authorName.getD "")
      else none
    ctaSection :=
      if jsTruthy inp.companyName then
        some { title := "Transforme seu negócio com " ++ kw
               text := "A " ++ inp.companyName.getD "" ++ " é especialista em " ++ kw ++
                 " e pode ajudar você a alcançar os mesmos resultados. Entre em contato conosco hoje mesmo!"
               buttonText := "Falar com " ++ inp.companyName.getD "" }
      else none }

/-- The parse-success normalization (source lines 434-488): metrics are
recomputed from `result.rewrittenContent || ""` — the occurrence count by
matching the compiled keyword regex `matcher` against the lowercased text —
every field of the untrusted payload is defaulted with `||` / `?.` /
`slice`, and `rewrittenContent` itself is passed through unguarded (hence
`Option`). -/
def successResult (inp : RewriteInput) (realCaseStudies : List CaseStudy)
    (matcher : String → Nat) (p : PartialResult) : SEORewriteResult :=
  let kw := inp.targetKeyword
  let rewrittenContent := p.rewrittenContent.getD ""
  let wc := countWords rewrittenContent
  let occ := matcher (lowerStr rewrittenContent)
  { rewrittenContent := p.rewrittenContent
    wordCount := wc
    keywordDensity := densityString occ wc
    seoScore := seoScoreOf occ wc
    readabilityScore := if wc > 500 then "Boa" else "Regular"
    metaDescription :=
      jsOrStr (p.metaDescription.map (fun s => strTake 155 s))
        (kw ++ " - resumo otimizado para SEO")
    helpfulnessScore := jsOrInt p.helpfulnessScore 85
    qualityScore := jsOrInt p.qualityScore 80
    eatScore := jsOrInt p.eatScore 75
    structureScore := jsOrInt p.structureScore 82
    aiOptimizationScore := jsOrInt p.aiOptimizationScore 78
    featuredImage :=
      { title := jsOrStr (p.featuredImage.bind (fun f => f.title)) ("Imagem sobre " ++ kw)
        altText := jsOrStr (p.featuredImage.bind (fun f => f.altText)) (kw ++ " - imagem ilustrativa")
        keywords := (p.featuredImage.bind (fun f => f.keywords)).getD [kw] }
    faq :=
      match p.faq with
      | some l => l.take 8
      | none => [{ question := "O que é " ++ kw ++ "?"
                   answer := "Resposta baseada no conteúdo reescrito." }]
    caseStudies :=
      match p.caseStudies with
      | some l => l.take 3
      | none => realCaseStudies
    richContent :=
      p.richContent.getD { suggestedGraphics := [], suggestedImages := [], visualElements := [] }
    citations := p.citations.getD []
    internalLinking := p.internalLinking.getD []
    entities := p.entities.getD { brands := [], people := [], locations := [], concepts := [] }
    schemaMarkup :=
      p.schemaMarkup.getD
        { articleSchema := true, authorSchema := false, faqSchema := false
          organizationSchema := false, reviewSchema := false }
    authorBio :=
      match p.authorBio with
      | some s =>
        if s = "" then
          if jsTruthy inp.authorName then
            some ("Biografia do autor " ++ inp.authorName.getD "")
          else none
        else some s
      | none =>
        if jsTruthy inp.authorName then
          some ("Biografia do autor " ++ inp.authorName.getD "")
        else none
    ctaSection :=
      match p.ctaSection with
      | some c => some c
      | none =>
        if jsTruthy inp.companyName then
          some { title := "Transforme seu negócio com " ++ kw
                 text := "A " ++ inp.companyName.getD "" ++ " é especialista em " ++ kw ++
                   " e pode ajudar você a alcançar os mesmos resultados. Entre em contato conosco hoje mesmo!"
                 buttonText := "Falar com " ++ inp.companyName.getD "" }
        else none }

/-- The body of the `try` block: check the credential, inspect the upstream
outcome, and either throw (`.error`, carrying the thrown message) or build
the result.  On both metric paths (source lines 380 and 437) the keyword is
compiled with `new RegExp(targetKeyword.toLowerCase(), 'g')` before the
result is assembled; an invalid pattern makes that construction throw, an
error this branch propagates.  The collaborator calls that precede the
credential check only affect `realCaseStudies` and the prompt, neither of
which can throw out of the function (the case-study lookup swallows its own
errors). -/
def rewriteBody (inp : RewriteInput) (envKey : Option String)
    (realCaseStudies : List CaseStudy) (regex : RegexCompile)
    (upstream : UpstreamOutcome) : Except String SEORewriteResult :=
  if keyUsable (effectiveKey inp.apiKey envKey) then
    match upstream with
    | .apiError m => .error m
    | .reply content parsed =>
      if content.getD "" = "" then .error emptyReplyMessage
      else
        match parsed with
        | none =>
          match regex (lowerStr inp.targetKeyword) with
          | .error m => .error m
          | .ok matcher =>
            .ok (fallbackResult inp realCaseStudies matcher (content.getD ""))
        | some p =>
          match regex (lowerStr inp.targetKeyword) with
          | .error m => .error m
          | .ok matcher => .ok (successResult inp realCaseStudies matcher p)
  else .error configErrorMessage

/-- `rewriteContentWithSEO`: the `try` body wrapped in the catch block,
which re-throws every caught error after classification. -/
def rewriteContentWithSEO (inp : RewriteInput) (envKey : Option String)
    (realCaseStudies : List CaseStudy) (regex : RegexCompile)
    (upstream : UpstreamOutcome) : Except String SEORewriteResult :=
  match rewriteBody inp envKey realCaseStudies regex upstream with
  | .ok r => .ok r
  | .error m => .error (classifyUpstreamError m)

/-! ## Persistence adapter (`server/storage.ts`) -/

/-- A persisted configuration row: the caller-supplied payload (the schema
is outside the sources, so it stays abstract) plus the `updatedAt` column
that `saveConfig` stamps with the current time. -/
structure StoredConfig (α : Type) where
  data : α
  updatedAt : Nat
  deriving DecidableEq

/-- `DatabaseStorage.saveConfig`: `db.delete(configs)` empties the table,
then the new row is inserted with a fresh `updatedAt`; the resulting table
state is the singleton. -/
def saveConfig {α : Type} (_store : List (StoredConfig α)) (configData : α)
    (now : Nat) : List (StoredConfig α) :=
  [{ data := configData, updatedAt := now }]

/-- `DatabaseStorage.getConfig`: `select ... orderBy(desc(updatedAt)).limit(1)`
— the row with the greatest `updatedAt` (first such row on ties), or `none`
on an empty table. -/
def getConfig {α : Type} (store : List (StoredConfig α)) : Option (StoredConfig α) :=
  store.foldl
    (fun best c =>
      match best with
      | none => some c
      | some b => if c.updatedAt > b.updatedAt then some c else some b)
    none

/-- One `rewrite_history` row, restricted to the two columns `getStats`
reads; both are nullable (`item.seoScore || 0`, `item.wordCount || 0`). -/
structure RewriteHistoryEntry where
  seoScore : Option Int := none
  wordCount : Option Int := none
  deriving DecidableEq

/-- The aggregate returned by `getStats`. -/
structure StatsSummary where
  totalRewrites : Nat
  avgSeoScore : Int
  totalWordCount : Int
  deriving DecidableEq

/-- `DatabaseStorage.getStats`: load the whole history table and reduce it
client-side; the average is guarded by `history.length > 0` and rounds with
`Math.round`. -/
def getStats (history : List RewriteHistoryEntry) : StatsSummary :=
  { totalRewrites := history.length
    avgSeoScore :=
      if history.length > 0 then
        jsRound (history.foldl (fun s i => s + i.seoScore.getD 0) 0) history.length
      else 0
    totalWordCount := history.foldl (fun s i => s + i.wordCount.getD 0) 0 }

/-! ## Helper lemmas -/

/-- `split(/\s+/)` never returns the empty list — in particular the empty
string still counts one (empty) field, so the word count is never `0`. -/
theorem countWords_pos (s : String) : 0 < countWords s := by
  unfold countWords splitWs
  simp

/-- The catch block re-throws, so the function succeeds exactly when the
`try` body does, with the same result. -/
theorem rewrite_ok_iff {inp : RewriteInput} {envKey : Option String}
    {rcs : List CaseStudy} {regex : RegexCompile} {upstream : UpstreamOutcome}
    {r : SEORewriteResult} :
    rewriteContentWithSEO inp envKey rcs regex upstream = .ok r ↔
      rewriteBody inp envKey rcs regex upstream = .ok r := by
  unfold rewriteContentWithSEO
  cases hb : rewriteBody inp envKey rcs regex upstream <;> simp

/-- Every error of the function is the classification of an error thrown by
the `try` body. -/
theorem rewrite_error_cases {inp : RewriteInput} {envKey : Option String}
    {rcs : List CaseStudy} {regex : RegexCompile} {upstream : UpstreamOutcome}
    {m : String}
    (h : rewriteContentWithSEO inp envKey rcs regex upstream = .error m) :
    ∃ m0, rewriteBody inp envKey rcs regex upstream = .error m0 ∧
      m = classifyUpstreamError m0 := by
  unfold rewriteContentWithSEO at h
  cases hb : rewriteBody inp envKey rcs regex upstream with
  | ok r => rw [hb] at h; simp at h
  | error m0 => rw [hb] at h; simp at h; exact ⟨m0, rfl, h.symm⟩

/-- Case analysis of a successful run: the credential was usable, the
upstream call returned a non-empty reply, the keyword compiled as a regular
expression, and the result came from either the parse-failure fallback or
the parse-success normalization using the compiled matcher. -/
theorem body_ok_cases {inp : RewriteInput} {envKey : Option String}
    {rcs : List CaseStudy} {regex : RegexCompile} {upstream : UpstreamOutcome}
    {r : SEORewriteResult}
    (h : rewriteBody inp envKey rcs regex upstream = .ok r) :
    keyUsable (effectiveKey inp.apiKey envKey) = true ∧
    ∃ content parsed matcher, upstream = .reply content parsed ∧
      content.getD "" ≠ "" ∧
      regex (lowerStr inp.targetKeyword) = .ok matcher ∧
      ((parsed = none ∧ r = fallbackResult inp rcs matcher (content.getD "")) ∨
       (∃ p, parsed = some p ∧ r = successResult inp rcs matcher p)) := by
  by_cases hk : keyUsable (effectiveKey inp.apiKey envKey) = true
  · refine ⟨hk, ?_⟩
    cases upstream with
    | apiError m => simp [rewriteBody, hk] at h
    | reply content parsed =>
      by_cases hc : content.getD "" = ""
      · simp [rewriteBody, hk, hc] at h
      · cases hre : regex (lowerStr inp.targetKeyword) with
        | error m =>
          cases parsed with
          | none => simp [rewriteBody, hk, hc, hre] at h
          | some p => simp [rewriteBody, hk, hc, hre] at h
        | ok matcher =>
          cases parsed with
          | none =>
            refine ⟨content, none, matcher, rfl, hc, rfl, Or.inl ⟨rfl, ?_⟩⟩
            simp [rewriteBody, hk, hc, hre] at h
            exact h.symm
          | some p =>
            refine ⟨content, some p, matcher, rfl, hc, rfl, Or.inr ⟨p, rfl, ?_⟩⟩
            simp [rewriteBody, hk, hc, hre] at h
            exact h.symm
  · simp [rewriteBody, hk] at h

/-- `toFixed(1)` always prints exactly one fractional digit. -/
theorem densityString_format (occ wc : Nat) (h : 0 < wc) :
    ∃ n d : Nat, d < 10 ∧
      densityString occ wc = Nat.repr n ++ "." ++ Nat.repr d ++ "%" := by
  refine ⟨(2000 * occ + wc) / (2 * wc) / 10, (2000 * occ + wc) / (2 * wc) % 10, ?_, ?_⟩
  · exact Nat.mod_lt _ (by omega)
  · simp [densityString, toFixed1Percent, h]

/-- The clamp `min 100 (max 1 _)` keeps the score inside `[1, 100]`. -/
theorem seoScoreOf_bounds (occ wc : Nat) :
    1 ≤ seoScoreOf occ wc ∧ seoScoreOf occ wc ≤ 100 := by
  unfold seoScoreOf
  constructor
  · exact le_min (by omega) (le_max_left 1 _)
  · exact min_le_left 100 _

/-- String length distributes over append. -/
theorem strLen_append (a b : String) : (a ++ b).length = a.length + b.length := by
  cases a with
  | mk la =>
    cases b with
    | mk lb =>
      show (la ++ lb).length = la.length + lb.length
      exact List.length_append la lb

/-- `substring(0, n)` returns at most `n` characters. -/
theorem strLen_strTake (n : Nat) (s : String) : (strTake n s).length ≤ n := by
  cases s with
  | mk l =>
    show (l.take n).length ≤ n
    exact List.length_take_le n l

/-- A non-empty string has a non-empty character list. -/
theorem data_ne_nil_of_ne_empty {s : String} (h : s ≠ "") : s.data ≠ [] := by
  intro hd
  apply h
  cases s with
  | mk l =>
    simp only [String.data] at hd
    rw [hd]

/-- Lower-casing preserves non-emptiness. -/
theorem lowerStr_data_ne_nil {s : String} (h : s ≠ "") : (lowerStr s).data ≠ [] := by
  cases s with
  | mk l =>
    cases l with
    | nil => exact absurd rfl h
    | cons c cs =>
      show (c.toLower :: cs.map Char.toLower) ≠ []
      simp

/-- A non-empty pattern has no occurrence in the empty string. -/
theorem countOcc_empty_hay (needle : String) (h : needle.data ≠ []) :
    countOcc needle "" = 0 := by
  unfold countOcc
  rw [if_neg (by simpa using h)]
  rfl

/-- A left fold accumulating `f` over a list is the sum of the mapped list. -/
theorem foldl_add_map {β : Type} (f : β → Int) (l : List β) (a : Int) :
    l.foldl (fun s i => s + f i) a = a + (l.map f).sum := by
  induction l generalizing a with
  | nil => simp
  | cons x xs ih => simp [ih]; ring

/-- The messages a rewrite failure can carry: one of the three provider
classifications, or the generic processing wrapper around the underlying
message.  These are exactly the spec's ConfigurationError / UpstreamError
surface (the configuration message itself reaches the caller wrapped by the
generic branch). -/
def isSurfacedErrorMessage (m : String) : Prop :=
  m = apiKeyErrorMessage ∨ m = quotaErrorMessage ∨ m = rateLimitErrorMessage ∨
    ∃ e, m = genericErrorPre ++ e

/-- The classifier only emits surfaced-error messages. -/
theorem classify_surfaced (e : String) :
    isSurfacedErrorMessage (classifyUpstreamError e) := by
  unfold classifyUpstreamError isSurfacedErrorMessage
  by_cases h1 : strContains e "API key" = true
  · simp [h1]
  · by_cases h2 : strContains e "quota" = true
    · simp [h1, h2]
    · by_cases h3 : strContains e "rate limit" = true
      · simp [h1, h2, h3]
      · simp [h1, h2, h3]

/-- `jsTruthy` on an absent value. -/
@[simp] theorem jsTruthy_none : jsTruthy none = false := rfl

/-- `jsTruthy` on a present string. -/
@[simp] theorem jsTruthy_some (s : String) : jsTruthy (some s) = (s != "") := rfl

/-- `jsOrStr` on an absent value. -/
@[simp] theorem jsOrStr_none (d : String) : jsOrStr none d = d := rfl

/-- `jsOrStr` on a present string. -/
@[simp] theorem jsOrStr_some (s d : String) :
    jsOrStr (some s) d = if s = "" then d else s := rfl

/-- On the fallback path the author bio is driven by the input parameter. -/
theorem fallbackResult_authorBio_isSome (inp : RewriteInput) (rcs : List CaseStudy)
    (matcher : String → Nat) (c : String) :
    (fallbackResult inp rcs matcher c).authorBio.isSome = jsTruthy inp.authorName := by
  cases hj : jsTruthy inp.authorName <;> simp [fallbackResult, hj]

/-- On the fallback path the CTA section is driven by the input parameter. -/
theorem fallbackResult_cta_isSome (inp : RewriteInput) (rcs : List CaseStudy)
    (matcher : String → Nat) (c : String) :
    (fallbackResult inp rcs matcher c).ctaSection.isSome = jsTruthy inp.companyName := by
  cases hj : jsTruthy inp.companyName <;> simp [fallbackResult, hj]

/-- On the success path `result.authorBio || (authorName ? ... : undefined)`
is present iff the payload carries a truthy bio or the author parameter was
given. -/
theorem successResult_authorBio_isSome (inp : RewriteInput) (rcs : List CaseStudy)
    (matcher : String → Nat) (p : PartialResult) :
    (successResult inp rcs matcher p).authorBio.isSome
      = (jsTruthy p.authorBio || jsTruthy inp.authorName) := by
  cases pa : p.authorBio with
  | none =>
    cases hj : jsTruthy inp.authorName <;> simp [successResult, pa, hj]
  | some s =>
    by_cases hs : s = "" <;> cases hj : jsTruthy inp.authorName <;>
      simp [successResult, pa, hs, hj]

/-- On the success path `result.ctaSection || (companyName ? ... : undefined)`
is present iff the payload carries one or the company parameter was given. -/
theorem successResult_cta_isSome (inp : RewriteInput) (rcs : List CaseStudy)
    (matcher : String → Nat) (p : PartialResult) :
    (successResult inp rcs matcher p).ctaSection.isSome
      = (p.ctaSection.isSome || jsTruthy inp.companyName) := by
  cases pc : p.ctaSection <;> cases hj : jsTruthy inp.companyName <;>
    simp [successResult, pc, hj]

/-! ## Concrete sample inputs used by witnesses and counterexamples -/

/-- The matcher that the compiled global regex of a metacharacter-free
pattern denotes: the case of `new RegExp(pat, 'g')` where `pat` contains no
regex metacharacters, so matching counts literal occurrences. -/
def literalMatcher (pat : String) : String → Nat :=
  fun hay => countOcc pat hay

/-- A concrete regex-engine instantiation at the patterns the sample runs
query, mirroring what `new RegExp(pattern, 'g')` really does there: `"("`
is an invalid pattern and the construction throws a SyntaxError; `"."`
compiles to a matcher that matches every character except a line terminator
(the samples only match it against line-terminator-free text); any other
queried pattern (`"teste"`, the all-`'a'` keyword) is metacharacter-free
and compiles to the literal matcher. -/
def sampleRegex : RegexCompile :=
  fun pat =>
    if pat = "(" then
      .error "Invalid regular expression: /(/: Unterminated group"
    else if pat = "." then
      .ok (fun hay => (hay.data.filter (fun c => c != '\n' && c != '\r')).length)
    else .ok (literalMatcher pat)

/-- A minimal input with a usable explicit API key. -/
def inpBasic : RewriteInput :=
  { originalContent := "Teste.", targetKeyword := "teste", apiKey := some "sk-test" }

/-- An input whose keyword `"."` is a regex metacharacter. -/
def inpDot : RewriteInput :=
  { originalContent := "x", targetKeyword := ".", apiKey := some "sk-test" }

/-- A payload whose rewritten text is `"ab"`. -/
def pAb : PartialResult := { rewrittenContent := some "ab" }

/-- The same input with no credential anywhere. -/
def inpNoKey : RewriteInput :=
  { originalContent := "Teste.", targetKeyword := "teste" }

/-- A 128-character keyword (`"aaa…a"`). -/
def kwLong : String := String.mk (List.replicate 128 'a')

/-- An input whose keyword is 128 characters long. -/
def inpLong : RewriteInput :=
  { originalContent := "x", targetKeyword := kwLong, apiKey := some "sk-test" }

/-- An upstream reply that parses as the empty JSON object `{}`. -/
def outEmptyJson : UpstreamOutcome := .reply (some "{}") (some {})

/-- A payload that volunteers an author bio and a CTA section even though the
caller supplied neither an author nor a company. -/
def pUnrequested : PartialResult :=
  { rewrittenContent := some "texto", authorBio := some "Bio falsa"
    ctaSection := some { title := "t", text := "x", buttonText := "b" } }

/-- A payload whose rewritten content is the empty string. -/
def pEmptyText : PartialResult := { rewrittenContent := some "" }

/-- A payload carrying metric values that conflict with the actual text
(`wordCount` 999, density `"9.9%"`, score 7 for a 3-word text). -/
def pConflict : PartialResult :=
  { rewrittenContent := some "Teste teste teste.", wordCount := some 999
    keywordDensity := some "9.9%", seoScore := some 7 }

/-- The result the conflicting payload normalizes to. -/
def rConflict : SEORewriteResult :=
  successResult inpBasic [] (literalMatcher "teste") pConflict

/-! ## Claims -/

/-- C1 (amended): for every input, `rewriteContentWithSEO` either returns a
result — populated in every required field except that `rewrittenContent` is
undefined exactly when the reply parsed as JSON but lacked that field — or
fails with one of the classified error messages (the spec's
ConfigurationError / UpstreamError surface).  With a usable credential and a
non-empty reply it succeeds whenever the lowercased keyword compiles as a
regular expression — however malformed the reply's JSON — but a keyword
that is an invalid pattern (such as `"("`) makes `new RegExp` throw on both
metric paths, and the failure surfaces as the classified SyntaxError. -/
theorem rewrite_total_or_classified (inp : RewriteInput) (envKey : Option String)
    (rcs : List CaseStudy) (regex : RegexCompile) (upstream : UpstreamOutcome) :
    (∀ r, rewriteContentWithSEO inp envKey rcs regex upstream = .ok r →
      (r.rewrittenContent = none ↔
        ∃ content p, upstream = .reply content (some p) ∧ p.rewrittenContent = none)) ∧
    (∀ m, rewriteContentWithSEO inp envKey rcs regex upstream = .error m →
      isSurfacedErrorMessage m) ∧
    (∀ c parsed f, upstream = .reply (some c) parsed → c ≠ "" →
      keyUsable (effectiveKey inp.apiKey envKey) = true →
      regex (lowerStr inp.targetKeyword) = .ok f →
      (rewriteContentWithSEO inp envKey rcs regex upstream).isOk = true) ∧
    (∀ c parsed m, upstream = .reply (some c) parsed → c ≠ "" →
      keyUsable (effectiveKey inp.apiKey envKey) = true →
      regex (lowerStr inp.targetKeyword) = .error m →
      rewriteContentWithSEO inp envKey rcs regex upstream =
        .error (classifyUpstreamError m)) := by
  refine ⟨?_, ?_, ?_, ?_⟩
  · intro r h
    obtain ⟨hk, content, parsed, matcher, hup, hc, hre, hcase⟩ :=
      body_ok_cases (rewrite_ok_iff.mp h)
    subst hup
    rcases hcase with ⟨hp, rfl⟩ | ⟨p, hp, rfl⟩
    · subst hp
      constructor
      · intro hnone
        simp [fallbackResult] at hnone
      · rintro ⟨c', p', heq, hp'⟩
        injection heq with h1 h2
        simp at h2
    · subst hp
      show p.rewrittenContent = none ↔ _
      constructor
      · intro hnone
        exact ⟨content, p, rfl, hnone⟩
      · rintro ⟨c', p', heq, hp'⟩
        injection heq with h1 h2
        injection h2 with h3
        subst h3
        exact hp'
  · intro m h
    obtain ⟨m0, hb, hm⟩ := rewrite_error_cases h
    rw [hm]
    exact classify_surfaced m0
  · intro c parsed f hup hc hk hre
    subst hup
    cases parsed with
    | none =>
      have hb : rewriteBody inp envKey rcs regex (.reply (some c) none) =
          .ok (fallbackResult inp rcs f c) := by
        unfold rewriteBody
        simp [hk, hc, hre]
      rw [rewrite_ok_iff.mpr hb]
      rfl
    | some p =>
      have hb : rewriteBody inp envKey rcs regex (.reply (some c) (some p)) =
          .ok (successResult inp rcs f p) := by
        unfold rewriteBody
        simp [hk, hc, hre]
      rw [rewrite_ok_iff.mpr hb]
      rfl
  · intro c parsed m hup hc hk hre
    subst hup
    have hb : rewriteBody inp envKey rcs regex (.reply (some c) parsed) =
        .error m := by
      cases parsed with
      | none =>
        unfold rewriteBody
        simp [hk, hc, hre]
      | some p =>
        unfold rewriteBody
        simp [hk, hc, hre]
    unfold rewriteContentWithSEO
    rw [hb]

/-- C1 counterexample to the claim as stated: a run whose upstream reply is
the valid JSON object `{}` succeeds, yet the returned result's required
`rewrittenContent` field is absent (`undefined`) — the result is not fully
populated. -/
theorem rewrite_missing_content_cx :
    (rewriteContentWithSEO inpBasic none [] sampleRegex outEmptyJson).map
      (fun r => r.rewrittenContent.isSome) = .ok false := rfl

/-- C1 witness: with a usable key, a non-empty non-JSON reply and a keyword
that compiles (`"teste"`), the operation succeeds; and with the
invalid-pattern keyword `"("` it fails with the classified SyntaxError. -/
theorem rewrite_total_or_classified_witness :
    ((rewriteContentWithSEO inpBasic none [] sampleRegex
        (.reply (some "hello") none)).isOk = true) ∧
    rewriteContentWithSEO
        { originalContent := "x", targetKeyword := "(", apiKey := some "sk-test" }
        none [] sampleRegex (.reply (some "hello") none) =
      .error (classifyUpstreamError
        "Invalid regular expression: /(/: Unterminated group") :=
  ⟨(rewrite_total_or_classified inpBasic none [] sampleRegex
      (.reply (some "hello") none)).2.2.1
    "hello" none (literalMatcher "teste") rfl (by decide) (by decide) rfl,
   (rewrite_total_or_classified
      { originalContent := "x", targetKeyword := "(", apiKey := some "sk-test" }
      none [] sampleRegex (.reply (some "hello") none)).2.2.2
    "hello" none "Invalid regular expression: /(/: Unterminated group"
    rfl (by decide) (by decide) rfl⟩

/-- C2 (amended): in every successfully returned result, `wordCount`,
`keywordDensity` and `seoScore` are recomputed from the final rewritten
text, for every payload including ones carrying conflicting metric values —
`countWords` is the whitespace-token count, `densityString` is
occurrences / word count × 100 to one decimal plus `%`, and `seoScoreOf` is
clamp(1..100, occ×10 + (20 if wc > 300 else 10)) — but the occurrence count
comes from matching the regex compiled from the lowercased keyword against
the lowercased text, which equals the case-insensitive literal count only
for metacharacter-free keywords. -/
theorem metrics_recomputed (inp : RewriteInput) (envKey : Option String)
    (rcs : List CaseStudy) (regex : RegexCompile) (upstream : UpstreamOutcome)
    (r : SEORewriteResult)
    (h : rewriteContentWithSEO inp envKey rcs regex upstream = .ok r) :
    ∃ f, regex (lowerStr inp.targetKeyword) = .ok f ∧
      r.wordCount = countWords (r.rewrittenContent.getD "") ∧
      r.keywordDensity = densityString
        (f (lowerStr (r.rewrittenContent.getD "")))
        (countWords (r.rewrittenContent.getD "")) ∧
      r.seoScore = seoScoreOf
        (f (lowerStr (r.rewrittenContent.getD "")))
        (countWords (r.rewrittenContent.getD "")) := by
  obtain ⟨hk, content, parsed, matcher, hup, hc, hre, hcase⟩ :=
    body_ok_cases (rewrite_ok_iff.mp h)
  rcases hcase with ⟨hp, rfl⟩ | ⟨p, hp, rfl⟩
  · exact ⟨matcher, hre, rfl, rfl, rfl⟩
  · exact ⟨matcher, hre, rfl, rfl, rfl⟩

/-- C2 counterexample to "literal keyword occurrences": with the keyword
`"."` — whose compiled regex matches every character — and rewritten text
`"ab"`, the program computes density `"200.0%"` (2 matches in a 1-token
text), while the claim's case-insensitive literal-occurrence formula gives
`"0.0%"` (the string `"."` never occurs in `"ab"`). -/
theorem metrics_not_literal_cx :
    (rewriteContentWithSEO inpDot none [] sampleRegex
        (.reply (some "x") (some pAb))).map
      (fun r => r.keywordDensity) = .ok "200.0%" ∧
    densityString (countOcc (lowerStr inpDot.targetKeyword) (lowerStr "ab"))
        (countWords "ab") = "0.0%" ∧
    ("200.0%" : String) ≠ "0.0%" :=
  ⟨rfl, rfl, by decide⟩

/-- C2 witness: a payload claiming wordCount 999, density `"9.9%"` and score
7 for the 3-word text `"Teste teste teste."` is overridden by the metrics
recomputed with the compiled keyword matcher. -/
theorem metrics_recomputed_witness :
    ∃ f, sampleRegex (lowerStr inpBasic.targetKeyword) = .ok f ∧
      rConflict.wordCount = countWords (rConflict.rewrittenContent.getD "") ∧
      rConflict.keywordDensity = densityString
        (f (lowerStr (rConflict.rewrittenContent.getD "")))
        (countWords (rConflict.rewrittenContent.getD "")) ∧
      rConflict.seoScore = seoScoreOf
        (f (lowerStr (rConflict.rewrittenContent.getD "")))
        (countWords (rConflict.rewrittenContent.getD "")) :=
  metrics_recomputed inpBasic none [] sampleRegex
    (.reply (some "raw") (some pConflict)) rConflict rfl

/-- C3: after any sequence of `saveConfig` calls with at least one call
(written `calls ++ [last]`), the config table holds exactly one record and
`getConfig` returns the record passed to the most recent call. -/
theorem saveConfig_single_and_last {α : Type} (init : List (StoredConfig α))
    (calls : List (α × Nat)) (lastData : α) (lastNow : Nat) :
    (((calls ++ [(lastData, lastNow)]).foldl
        (fun st c => saveConfig st c.1 c.2) init).length = 1) ∧
    getConfig ((calls ++ [(lastData, lastNow)]).foldl
        (fun st c => saveConfig st c.1 c.2) init) =
      some { data := lastData, updatedAt := lastNow } := by
  rw [List.foldl_append]
  exact ⟨rfl, rfl⟩

/-- C4 (amended): when no usable API credential is available, the rewrite
fails with the configuration error, but the message reaches the caller
wrapped by the catch-all handler (`"Erro no processamento do conteúdo: " ++`
the configuration message) rather than verbatim, because the throw sits
inside the `try` block; there is no fallback. -/
theorem missing_key_error_wrapped (inp : RewriteInput) (envKey : Option String)
    (rcs : List CaseStudy) (regex : RegexCompile) (upstream : UpstreamOutcome)
    (h : keyUsable (effectiveKey inp.apiKey envKey) = false) :
    rewriteContentWithSEO inp envKey rcs regex upstream =
      .error (genericErrorPre ++ configErrorMessage) := by
  have hb : rewriteBody inp envKey rcs regex upstream = .error configErrorMessage := by
    unfold rewriteBody
    simp [h]
  unfold rewriteContentWithSEO
  rw [hb]
  show Except.error (classifyUpstreamError configErrorMessage) = _
  have hcl : classifyUpstreamError configErrorMessage =
      genericErrorPre ++ configErrorMessage := by decide
  rw [hcl]

/-- C4 counterexample to "surfaced verbatim": with no credential the caller
receives the wrapped message, which differs from the configuration error
message itself. -/
theorem configError_not_verbatim_cx :
    rewriteContentWithSEO inpNoKey none [] sampleRegex (.reply (some "x") none) =
      .error (genericErrorPre ++ configErrorMessage) ∧
    genericErrorPre ++ configErrorMessage ≠ configErrorMessage :=
  ⟨rfl, by decide⟩

/-- C4 witness: the amended statement at a concrete credential-less input. -/
theorem missing_key_error_wrapped_witness :
    rewriteContentWithSEO inpNoKey none [] sampleRegex outEmptyJson =
      .error (genericErrorPre ++ configErrorMessage) :=
  missing_key_error_wrapped inpNoKey none [] sampleRegex outEmptyJson (by decide)

/-- C5 (amended): `metaDescription` never exceeds
`max 155 (keyword length + 28)`: a payload-supplied value is truncated to
155 characters, but the keyword-derived default
`keyword ++ " - resumo otimizado para SEO"` (28 characters of suffix) is
not truncated and exceeds 155 when the keyword is longer than 127. -/
theorem metaDescription_length_bound (inp : RewriteInput) (envKey : Option String)
    (rcs : List CaseStudy) (regex : RegexCompile) (upstream : UpstreamOutcome)
    (r : SEORewriteResult)
    (h : rewriteContentWithSEO inp envKey rcs regex upstream = .ok r) :
    r.metaDescription.length ≤ max 155 (inp.targetKeyword.length + 28) := by
  obtain ⟨hk, content, parsed, matcher, hup, hc, hre, hcase⟩ :=
    body_ok_cases (rewrite_ok_iff.mp h)
  have hdef : (inp.targetKeyword ++ " - resumo otimizado para SEO").length
      = inp.targetKeyword.length + 28 := by
    rw [strLen_append]
    rfl
  rcases hcase with ⟨hp, rfl⟩ | ⟨p, hp, rfl⟩
  · show (inp.targetKeyword ++ " - resumo otimizado para SEO").length ≤ _
    rw [hdef]
    exact le_max_right _ _
  · show (jsOrStr (p.metaDescription.map (fun s => strTake 155 s))
      (inp.targetKeyword ++ " - resumo otimizado para SEO")).length ≤ _
    cases pm : p.metaDescription with
    | none =>
      simp only [Option.map_none', jsOrStr_none]
      rw [hdef]
      exact le_max_right _ _
    | some s =>
      simp only [Option.map_some', jsOrStr_some]
      by_cases hs : strTake 155 s = ""
      · rw [if_pos hs, hdef]
        exact le_max_right _ _
      · rw [if_neg hs]
        exact le_trans (strLen_strTake 155 s) (le_max_left _ _)

/-- C5 counterexample to the 155 bound as stated: with a 128-character
keyword and a payload that omits `metaDescription`, the returned meta
description is the untruncated default of length 156 > 155. -/
theorem metaDescription_over_155_cx :
    (rewriteContentWithSEO inpLong none [] sampleRegex outEmptyJson).map
      (fun r => r.metaDescription.length) = .ok 156 ∧ ¬ (156 ≤ 155) :=
  ⟨rfl, by decide⟩

/-- C5 witness: the amended bound at a concrete parse-failure run. -/
theorem metaDescription_length_bound_witness :
    (fallbackResult inpBasic [] (literalMatcher "teste") "hello").metaDescription.length ≤
      max 155 (inpBasic.targetKeyword.length + 28) :=
  metaDescription_length_bound inpBasic none [] sampleRegex
    (.reply (some "hello") none)
    (fallbackResult inpBasic [] (literalMatcher "teste") "hello") rfl

/-- C6 (amended): on the parse-failure path, `authorBio` is present iff an
author name was supplied and `ctaSection` iff a company name was supplied;
on the parse-success path the payload can force either section: `authorBio`
is present iff the payload carries a truthy `authorBio` or an author name
was supplied, and `ctaSection` iff the payload carries one or a company
name was supplied. -/
theorem optional_sections_presence (inp : RewriteInput) (envKey : Option String)
    (rcs : List CaseStudy) (regex : RegexCompile) (upstream : UpstreamOutcome)
    (r : SEORewriteResult)
    (h : rewriteContentWithSEO inp envKey rcs regex upstream = .ok r) :
    (∀ content, upstream = .reply content none →
      r.authorBio.isSome = jsTruthy inp.authorName ∧
      r.ctaSection.isSome = jsTruthy inp.companyName) ∧
    (∀ content p, upstream = .reply content (some p) →
      r.authorBio.isSome = (jsTruthy p.authorBio || jsTruthy inp.authorName) ∧
      r.ctaSection.isSome = (p.ctaSection.isSome || jsTruthy inp.companyName)) := by
  obtain ⟨hk, content, parsed, matcher, hup, hc, hre, hcase⟩ :=
    body_ok_cases (rewrite_ok_iff.mp h)
  subst hup
  rcases hcase with ⟨hp, rfl⟩ | ⟨p, hp, rfl⟩
  · subst hp
    constructor
    · intro content' heq
      exact ⟨fallbackResult_authorBio_isSome inp rcs matcher _,
        fallbackResult_cta_isSome inp rcs matcher _⟩
    · intro content' p' heq
      injection heq with h1 h2
      simp at h2
  · subst hp
    constructor
    · intro content' heq
      injection heq with h1 h2
      simp at h2
    · intro content' p' heq
      injection heq with h1 h2
      injection h2 with h3
      subst h3
      exact ⟨successResult_authorBio_isSome inp rcs matcher p,
        successResult_cta_isSome inp rcs matcher p⟩

/-- C6 counterexample to the "only if" direction as stated: with neither an
author nor a company supplied, a payload that volunteers `authorBio` and
`ctaSection` makes both sections present in the returned result. -/
theorem optional_sections_unrequested_cx :
    inpBasic.authorName = none ∧ inpBasic.companyName = none ∧
    (rewriteContentWithSEO inpBasic none [] sampleRegex
        (.reply (some "j") (some pUnrequested))).map
      (fun r => (r.authorBio.isSome, r.ctaSection.isSome)) = .ok (true, true) :=
  ⟨rfl, rfl, rfl⟩

/-- C6 witness: the amended parse-success characterization at a concrete
run. -/
theorem optional_sections_presence_witness :
    (successResult inpBasic [] (literalMatcher "teste") pUnrequested).authorBio.isSome
        = (jsTruthy pUnrequested.authorBio || jsTruthy inpBasic.authorName) ∧
    (successResult inpBasic [] (literalMatcher "teste") pUnrequested).ctaSection.isSome
        = (pUnrequested.ctaSection.isSome || jsTruthy inpBasic.companyName) :=
  (optional_sections_presence inpBasic none [] sampleRegex
      (.reply (some "j") (some pUnrequested))
      (successResult inpBasic [] (literalMatcher "teste") pUnrequested) rfl).2
    (some "j") pUnrequested rfl

/-- C7 (amended): `keywordDensity` always consists of a decimal with exactly
one fractional digit followed by `%`; when the rewritten text is empty and
the compiled keyword regex has no match in the empty string — as for any
non-empty metacharacter-free keyword, whereas a pattern such as `"a*"`
matches the empty string once and yields `"100.0%"` — it equals `"0.0%"`,
not `"0%"`: the `'0%'` branch is unreachable because splitting any string,
the empty one included, yields at least one token, so the word count is
never zero. -/
theorem keywordDensity_format_and_empty (inp : RewriteInput) (envKey : Option String)
    (rcs : List CaseStudy) (regex : RegexCompile) (upstream : UpstreamOutcome)
    (r : SEORewriteResult)
    (h : rewriteContentWithSEO inp envKey rcs regex upstream = .ok r) :
    (∃ n d : Nat, d < 10 ∧
      r.keywordDensity = Nat.repr n ++ "." ++ Nat.repr d ++ "%") ∧
    (∀ f, regex (lowerStr inp.targetKeyword) = .ok f → f "" = 0 →
      r.rewrittenContent.getD "" = "" → r.keywordDensity = "0.0%") := by
  obtain ⟨hk, content, parsed, matcher, hup, hc, hre, hcase⟩ :=
    body_ok_cases (rewrite_ok_iff.mp h)
  rcases hcase with ⟨hp, rfl⟩ | ⟨p, hp, rfl⟩
  · constructor
    · exact densityString_format _ _ (countWords_pos _)
    · intro f hf hf0 hemp
      exact absurd hemp hc
  · constructor
    · exact densityString_format _ _ (countWords_pos _)
    · intro f hf hf0 hemp
      have hmf : matcher = f := by
        rw [hre] at hf
        injection hf
      show densityString
        (matcher (lowerStr (p.rewrittenContent.getD "")))
        (countWords (p.rewrittenContent.getD "")) = "0.0%"
      have hemp2 : p.rewrittenContent.getD "" = "" := hemp
      rw [hemp2, hmf]
      rw [show lowerStr "" = "" from rfl]
      rw [hf0]
      rfl

/-- C7 counterexample to `keywordDensity = "0%"` on empty text: an empty
rewritten text (with the metacharacter-free keyword `"teste"`, whose
compiled regex finds no match in it) yields `"0.0%"`, which is not
`"0%"`. -/
theorem keywordDensity_empty_text_cx :
    (rewriteContentWithSEO inpBasic none [] sampleRegex
        (.reply (some "j") (some pEmptyText))).map
      (fun r => (r.rewrittenContent, r.keywordDensity)) = .ok (some "", "0.0%") ∧
    ("0.0%" : String) ≠ "0%" :=
  ⟨rfl, by decide⟩

/-- The result of the empty-text run used by the C7 witness. -/
def rEmptyText : SEORewriteResult :=
  successResult inpBasic [] (literalMatcher "teste") pEmptyText

/-- C7 witness: the amended statement at the empty-text run, with every
hypothesis discharged — the literal matcher of `"teste"` finds no match in
the empty string, so the density is `"0.0%"`. -/
theorem keywordDensity_format_and_empty_witness :
    (∃ n d : Nat, d < 10 ∧
      rEmptyText.keywordDensity = Nat.repr n ++ "." ++ Nat.repr d ++ "%") ∧
    rEmptyText.keywordDensity = "0.0%" :=
  ⟨(keywordDensity_format_and_empty inpBasic none [] sampleRegex
      (.reply (some "j") (some pEmptyText)) rEmptyText rfl).1,
   (keywordDensity_format_and_empty inpBasic none [] sampleRegex
      (.reply (some "j") (some pEmptyText)) rEmptyText rfl).2
     (literalMatcher "teste") rfl rfl rfl⟩

/-- C8: in every returned result — both the parse-success and the
parse-failure path — `seoScore` lies in `[1, 100]`. -/
theorem rewrite_seoScore_in_range (inp : RewriteInput) (envKey : Option String)
    (rcs : List CaseStudy) (regex : RegexCompile) (upstream : UpstreamOutcome)
    (r : SEORewriteResult)
    (h : rewriteContentWithSEO inp envKey rcs regex upstream = .ok r) :
    1 ≤ r.seoScore ∧ r.seoScore ≤ 100 := by
  obtain ⟨hk, content, parsed, matcher, hup, hc, hre, hcase⟩ :=
    body_ok_cases (rewrite_ok_iff.mp h)
  rcases hcase with ⟨hp, rfl⟩ | ⟨p, hp, rfl⟩
  · exact seoScoreOf_bounds _ _
  · exact seoScoreOf_bounds _ _

/-- C8 witness: the bound at a concrete parse-failure run. -/
theorem rewrite_seoScore_in_range_witness :
    1 ≤ (fallbackResult inpBasic [] (literalMatcher "teste") "Teste teste teste.").seoScore ∧
      (fallbackResult inpBasic [] (literalMatcher "teste") "Teste teste teste.").seoScore ≤ 100 :=
  rewrite_seoScore_in_range inpBasic none [] sampleRegex
    (.reply (some "Teste teste teste.") none)
    (fallbackResult inpBasic [] (literalMatcher "teste") "Teste teste teste.") rfl

/-- C9: whenever the upstream reply is not valid JSON, the returned result
has empty `citations`, `internalLinking` and all three `richContent`
sub-lists, and `schemaMarkup` is `articleSchema = true` with every other
flag `false`. -/
theorem parse_failure_empty_defaults (inp : RewriteInput) (envKey : Option String)
    (rcs : List CaseStudy) (regex : RegexCompile) (content : Option String)
    (r : SEORewriteResult)
    (h : rewriteContentWithSEO inp envKey rcs regex (.reply content none) = .ok r) :
    r.citations = [] ∧ r.internalLinking = [] ∧
    r.richContent.suggestedGraphics = [] ∧ r.richContent.suggestedImages = [] ∧
    r.richContent.visualElements = [] ∧
    r.schemaMarkup = { articleSchema := true, authorSchema := false, faqSchema := false
                       organizationSchema := false, reviewSchema := false } := by
  obtain ⟨hk, content', parsed', matcher, hup, hc, hre, hcase⟩ :=
    body_ok_cases (rewrite_ok_iff.mp h)
  rcases hcase with ⟨hp, rfl⟩ | ⟨p, hp, rfl⟩
  · exact ⟨rfl, rfl, rfl, rfl, rfl, rfl⟩
  · rw [hp] at hup
    simp at hup

/-- C9 witness: the defaults at a concrete non-JSON reply. -/
theorem parse_failure_empty_defaults_witness :
    (fallbackResult inpBasic [] (literalMatcher "teste") "hello").citations = [] ∧
    (fallbackResult inpBasic [] (literalMatcher "teste") "hello").internalLinking = [] ∧
    (fallbackResult inpBasic [] (literalMatcher "teste") "hello").richContent.suggestedGraphics = [] ∧
    (fallbackResult inpBasic [] (literalMatcher "teste") "hello").richContent.suggestedImages = [] ∧
    (fallbackResult inpBasic [] (literalMatcher "teste") "hello").richContent.visualElements = [] ∧
    (fallbackResult inpBasic [] (literalMatcher "teste") "hello").schemaMarkup =
      { articleSchema := true, authorSchema := false, faqSchema := false
        organizationSchema := false, reviewSchema := false } :=
  parse_failure_empty_defaults inpBasic none [] sampleRegex (some "hello")
    (fallbackResult inpBasic [] (literalMatcher "teste") "hello") rfl

/-- C10: on an empty history `getStats` returns all zeros (the average is
guarded, so no division by zero arises); on a non-empty history the average
is the `Math.round`ed mean of the scores (missing scores counted as 0) and
the total is the sum of the word counts (missing counts as 0). -/
theorem getStats_empty_guard :
    getStats [] = { totalRewrites := 0, avgSeoScore := 0, totalWordCount := 0 } ∧
    ∀ h : List RewriteHistoryEntry, h ≠ [] →
      getStats h = { totalRewrites := h.length
                     avgSeoScore := jsRound ((h.map (fun e => e.seoScore.getD 0)).sum) h.length
                     totalWordCount := (h.map (fun e => e.wordCount.getD 0)).sum } := by
  constructor
  · rfl
  · intro h hne
    unfold getStats
    have hl : h.length > 0 := List.length_pos.mpr hne
    simp [hl, foldl_add_map]

/-- C10 witness: a one-entry history gives count 1, average 80, total 100. -/
theorem getStats_empty_guard_witness :
    getStats [{ seoScore := some 80, wordCount := some 100 }] =
      { totalRewrites := 1, avgSeoScore := 80, totalWordCount := 100 } := by
  have h1 := getStats_empty_guard.2 [{ seoScore := some 80, wordCount := some 100 }]
    (by decide)
  exact h1.trans (by decide)

end Reescrita
